import Mathlib

/-!
Verification of the tradescope-proto client.

Shallow embedding of the two engineering cores of the repository:

* the response-validation and error-wrapping logic of
  `src/services/geminiService.ts` (`analyzeChart`, `continueChart`),
  modelled over a `JSValue` type of decoded JSON values (JavaScript
  numbers are embedded as rationals; decoded JSON contains no `NaN`
  or `undefined`, the latter arises only from missing-property access);

* the viewport transform engine of the chart modal component
  (`handleWheel`, `handleMouseDown`, `handleMouseMove`, `handleMouseUp`,
  `handleReset`, `handleGenerateContinuation`), with JavaScript floats
  embedded as exact rationals: every operation involved is
  `+ - * / min max`, so the algebraic identities below are the exact
  counterparts of the float computations of the source.
-/

namespace TradeScope

/-- A decoded JavaScript value: the possible results of `JSON.parse`
together with `undefined`, which property access on an object lacking
the key produces. -/
inductive JSValue where
  | null
  | undefined
  | bool (b : Bool)
  | num (q : ℚ)
  | str (s : String)
  | arr (elems : List JSValue)
  | obj (fields : List (String × JSValue))

/-- JavaScript truthiness of a decoded JSON value.  Decoded JSON holds
no `NaN`, so a number is falsy exactly when it is `0`; a string is falsy
exactly when it is empty; objects and arrays are always truthy. -/
def truthy : JSValue → Bool
  | .null => false
  | .undefined => false
  | .bool b => b
  | .num q => if q = 0 then false else true
  | .str s => if s = "" then false else true
  | .arr _ => true
  | .obj _ => true

/-- `typeof v === "number"`. -/
def isNumber : JSValue → Bool
  | .num _ => true
  | _ => false

/-- Property access on a null/undefined base throws a `TypeError`. -/
def isNullish : JSValue → Bool
  | .null => true
  | .undefined => true
  | _ => false

/-- Key lookup in an object's field list (objects produced by
`JSON.parse` have distinct keys). -/
def lookupField : List (String × JSValue) → String → JSValue
  | [], _ => .undefined
  | kv :: rest, k => if kv.1 = k then kv.2 else lookupField rest k

/-- `v[k]` for a non-nullish base: `undefined` when the base is not an
object or lacks the key. -/
def getProp : JSValue → String → JSValue
  | .obj fields, k => lookupField fields k
  | _, _ => .undefined

/-- A thrown JavaScript value, as discriminated by the
`error instanceof Error` test of the catch blocks: an `Error` carrying
its message, or any other thrown value. -/
inductive JSThrow where
  | error (msg : String)
  | nonError

/-- `Object.values(Recommendation).includes(v)` under JavaScript strict
equality: `v` is one of the three enum strings. -/
def includesRecommendation (v : JSValue) : Bool :=
  match v with
  | .str s => s == "BUY" || s == "SELL" || s == "HOLD"
  | _ => false

/-- The disjunction guarding
`throw new Error('Invalid analysis data structure received from API.')`
in `analyzeChart`, clause for clause.  Nested property reads are only
reached after the containing value passed its truthiness test, so the
total `getProp` is exact there; the read on `result` itself is guarded
separately in `validateAnalysisResult`. -/
def invalidStructure (result : JSValue) : Bool :=
  !truthy (getProp result "prediction") ||
  !truthy (getProp result "recommendation") ||
  !includesRecommendation (getProp result "recommendation") ||
  !isNumber (getProp result "confidence") ||
  !truthy (getProp result "rationale") ||
  !truthy (getProp result "annotation") ||
  !truthy (getProp (getProp result "annotation") "type") ||
  !truthy (getProp (getProp result "annotation") "start") ||
  !isNumber (getProp (getProp (getProp result "annotation") "start") "x") ||
  !isNumber (getProp (getProp (getProp result "annotation") "start") "y") ||
  !truthy (getProp (getProp result "annotation") "end") ||
  !isNumber (getProp (getProp (getProp result "annotation") "end") "x") ||
  !isNumber (getProp (getProp (getProp result "annotation") "end") "y")

def invalidDataMessage : String := "Invalid analysis data structure received from API."

/-- Message of the `TypeError` thrown by reading `.prediction` off a
nullish `result`; the exact text is engine-defined. -/
def nullAccessMessage : String := "Cannot read properties of null"

/-- The validation step of `analyzeChart`: reading `result.prediction`
off a nullish parse result throws a `TypeError`; a `result` failing the
structure check throws the invalid-structure `Error`; otherwise the
parsed value is returned unchanged (`return result as AnalysisResult`). -/
def validateAnalysisResult (result : JSValue) : Except JSThrow JSValue :=
  if isNullish result then .error (.error nullAccessMessage)
  else if invalidStructure result then .error (.error invalidDataMessage)
  else .ok result

/-- Where an `analyzeChart` run can stand after the awaited service
call: the call threw, or it returned text whose trimmed form
`JSON.parse` either rejected (always a `SyntaxError`, carried here by
its message) or decoded to a `JSValue`. -/
inductive AnalyzeStep where
  | thrown (e : JSThrow)
  | response (parsed : Except String JSValue)

def analyzeUnknownMessage : String := "An unknown error occurred during chart analysis."

/-- The catch block of `analyzeChart`. -/
def wrapAnalyzeError : JSThrow → String
  | .error m => "Failed to analyze chart: " ++ m
  | .nonError => analyzeUnknownMessage

/-- Outcome of `analyzeChart` as a function of the service/parse step:
every throw inside the try block lands in the catch block and is
re-thrown wrapped. -/
def analyzeChartOutcome (step : AnalyzeStep) : Except String JSValue :=
  match step with
  | .thrown e => .error (wrapAnalyzeError e)
  | .response (.error parseMsg) => .error (wrapAnalyzeError (.error parseMsg))
  | .response (.ok j) =>
    match validateAnalysisResult j with
    | .ok r => .ok r
    | .error e => .error (wrapAnalyzeError e)

/-- `part.inlineData`, when present, with its `data` field. -/
structure InlineData where
  data : String

/-- A content part of the continuation response. -/
structure ContentPart where
  inlineData : Option InlineData

/-- The scanning loop of `continueChart`:
`for (const part of ...parts) if (part.inlineData) return part.inlineData.data`. -/
def firstInlineData : List ContentPart → Option String
  | [] => none
  | p :: ps =>
    match p.inlineData with
    | some d => some d.data
    | none => firstInlineData ps

def noImageMessage : String := "No image was generated in the response."

def continueUnknownMessage : String := "An unknown error occurred during chart continuation."

/-- The catch block of `continueChart`. -/
def wrapContinueError : JSThrow → String
  | .error m => "Failed to continue chart: " ++ m
  | .nonError => continueUnknownMessage

/-- Where a `continueChart` run can stand after the awaited service
call: the call threw, or returned `response.candidates[0].content.parts`. -/
inductive ContinueStep where
  | thrown (e : JSThrow)
  | response (parts : List ContentPart)

/-- Outcome of `continueChart`: the data of the first part carrying
inline image data, else the wrapped no-image `Error`. -/
def continueChartOutcome : ContinueStep → Except String String
  | .thrown e => .error (wrapContinueError e)
  | .response parts =>
    match firstInlineData parts with
    | some d => .ok d
    | none => .error (wrapContinueError (.error noImageMessage))

/-- A point in screen pixels. -/
structure Vec2 where
  x : ℚ
  y : ℚ

/-- The viewer state of the chart modal: `scale`, `position` (the pan
offset), the `isDragging` flag, and the `dragStartPos` ref. -/
structure ViewerState where
  scale : ℚ
  position : Vec2
  isDragging : Bool
  dragStartPos : Vec2

def MIN_SCALE : ℚ := 1

def MAX_SCALE : ℚ := 8

/-- The literal `0.002`; `2 / 1000` exactly, rationals standing in for
the float. -/
def ZOOM_SENSITIVITY : ℚ := 2 / 1000

/-- A wheel event together with the container's bounding rectangle
(the handler early-returns when the container ref is absent, i.e. an
event only reaches the state update with a rectangle in hand). -/
structure WheelEvent where
  clientX : ℚ
  clientY : ℚ
  deltaY : ℚ
  rectLeft : ℚ
  rectTop : ℚ

/-- `Math.max(MIN_SCALE, Math.min(MAX_SCALE, scale * (1 + delta)))`
with `delta = -e.deltaY * ZOOM_SENSITIVITY`. -/
def wheelNewScale (s : ViewerState) (e : WheelEvent) : ℚ :=
  max MIN_SCALE (min MAX_SCALE (s.scale * (1 + -e.deltaY * ZOOM_SENSITIVITY)))

/-- The `handleWheel` callback of the chart modal. -/
def handleWheel (s : ViewerState) (e : WheelEvent) : ViewerState :=
  let newScale := wheelNewScale s e
  if newScale = s.scale then s
  else
    let mouseX := e.clientX - e.rectLeft
    let mouseY := e.clientY - e.rectTop
    let imageX := (mouseX - s.position.x) / s.scale
    let imageY := (mouseY - s.position.y) / s.scale
    { s with scale := newScale,
             position := ⟨mouseX - imageX * newScale, mouseY - imageY * newScale⟩ }

/-- A mouse event's client coordinates. -/
structure MouseEvent where
  clientX : ℚ
  clientY : ℚ

/-- The `handleMouseDown` callback: a no-op at scale 1, otherwise it
enters dragging and records `client - position` in the drag-start ref. -/
def handleMouseDown (s : ViewerState) (e : MouseEvent) : ViewerState :=
  if s.scale = 1 then s
  else
    { s with isDragging := true,
             dragStartPos := ⟨e.clientX - s.position.x, e.clientY - s.position.y⟩ }

/-- The `handleMouseUp` callback, wired to both `onMouseUp` and
`onMouseLeave` of the container. -/
def handleMouseUp (s : ViewerState) : ViewerState :=
  { s with isDragging := false }

/-- The `handleMouseMove` callback: while dragging, the position becomes
`client - dragStartPos`. -/
def handleMouseMove (s : ViewerState) (e : MouseEvent) : ViewerState :=
  if s.isDragging then
    { s with position := ⟨e.clientX - s.dragStartPos.x, e.clientY - s.dragStartPos.y⟩ }
  else s

/-- The `handleReset` callback: `setScale(1); setPosition({x: 0, y: 0})`. -/
def handleReset (s : ViewerState) : ViewerState :=
  { s with scale := 1, position := ⟨0, 0⟩ }

/-- The initial `useState` values of the viewer. -/
def initialViewerState : ViewerState :=
  { scale := 1, position := ⟨0, 0⟩, isDragging := false, dragStartPos := ⟨0, 0⟩ }

/-- The modal state touched by the continuation flow. -/
structure ModalState where
  viewer : ViewerState
  isGenerating : Bool
  continuedImageSrc : Option String
  viewingOriginal : Bool
  generationError : Option String

/-- The `handleGenerateContinuation` callback, collapsed over the one
awaited `continueChart` call: guarded by `!result || isGenerating`;
success stores the data URL, switches to the predicted view, resets the
viewer and clears the error; failure records the error message; the
`finally` clause drops `isGenerating` on both paths. -/
def handleGenerateContinuation (hasResult : Bool) (s : ModalState)
    (call : Except String String) : ModalState :=
  if !hasResult || s.isGenerating then s
  else
    match call with
    | .ok newImageBase64 =>
      { s with continuedImageSrc := some ("data:image/png;base64," ++ newImageBase64),
               viewingOriginal := false,
               viewer := handleReset s.viewer,
               generationError := none,
               isGenerating := false }
    | .error m =>
      { s with generationError := some m, isGenerating := false }

/-- `viewingOriginal || !continuedImageSrc ? imageSrc : continuedImageSrc`. -/
def displayImageSrc (imageSrc : String) (s : ModalState) : String :=
  if s.viewingOriginal || s.continuedImageSrc.isNone then imageSrc
  else s.continuedImageSrc.getD imageSrc

/-! ### Viewport lemmas -/

theorem wheelNewScale_ge_one (s : ViewerState) (e : WheelEvent) :
    1 ≤ wheelNewScale s e := by
  unfold wheelNewScale MIN_SCALE
  exact le_max_left _ _

theorem wheelNewScale_le_eight (s : ViewerState) (e : WheelEvent) :
    wheelNewScale s e ≤ 8 := by
  unfold wheelNewScale MIN_SCALE MAX_SCALE
  exact max_le (by norm_num) (min_le_left _ _)

theorem handleWheel_of_ne (s : ViewerState) (e : WheelEvent)
    (hne : wheelNewScale s e ≠ s.scale) :
    handleWheel s e =
      { s with
        scale := wheelNewScale s e,
        position :=
          ⟨(e.clientX - e.rectLeft) -
              ((e.clientX - e.rectLeft) - s.position.x) / s.scale * wheelNewScale s e,
           (e.clientY - e.rectTop) -
              ((e.clientY - e.rectTop) - s.position.y) / s.scale * wheelNewScale s e⟩ } := by
  unfold handleWheel
  simp [hne]

theorem handleWheel_scale_bounds (s : ViewerState) (e : WheelEvent)
    (h1 : 1 ≤ s.scale) (h8 : s.scale ≤ 8) :
    1 ≤ (handleWheel s e).scale ∧ (handleWheel s e).scale ≤ 8 := by
  unfold handleWheel
  by_cases h : wheelNewScale s e = s.scale
  · simp only [h, if_pos rfl]
    exact ⟨h1, h8⟩
  · simp only [if_neg h]
    exact ⟨wheelNewScale_ge_one s e, wheelNewScale_le_eight s e⟩

/-! ### Claims about the viewport engine -/

/-- Claim C1: for every pointer position, every viewport state with
scale in [1, 8], and every wheel delta whose clamped new scale differs
from the current scale, the image-space coordinate under the pointer is
preserved by the wheel handler:
`(P - offset) / scale = (P - offset') / scale'`. -/
theorem zoom_anchor_preserved (s : ViewerState) (e : WheelEvent)
    (h1 : 1 ≤ s.scale) (h8 : s.scale ≤ 8)
    (hne : wheelNewScale s e ≠ s.scale) :
    ((e.clientX - e.rectLeft) - s.position.x) / s.scale
        = ((e.clientX - e.rectLeft) - (handleWheel s e).position.x) / (handleWheel s e).scale ∧
    ((e.clientY - e.rectTop) - s.position.y) / s.scale
        = ((e.clientY - e.rectTop) - (handleWheel s e).position.y) / (handleWheel s e).scale := by
  have hs : s.scale ≠ 0 := by positivity
  have hns : wheelNewScale s e ≠ 0 := by
    have := wheelNewScale_ge_one s e
    positivity
  rw [handleWheel_of_ne s e hne]
  constructor
  · field_simp
    ring
  · field_simp
    ring

/-- Witness for C1: at scale 1 with offset 0, a wheel event with
`deltaY = -500` at pointer (100, 50) doubles the scale and moves the
offset to (-100, -50), preserving the image point under the pointer. -/
theorem zoom_anchor_preserved_witness :
    ((100 : ℚ) - 0 - initialViewerState.position.x) / initialViewerState.scale
        = (100 - 0 - (handleWheel initialViewerState ⟨100, 50, -500, 0, 0⟩).position.x)
            / (handleWheel initialViewerState ⟨100, 50, -500, 0, 0⟩).scale ∧
    ((50 : ℚ) - 0 - initialViewerState.position.y) / initialViewerState.scale
        = (50 - 0 - (handleWheel initialViewerState ⟨100, 50, -500, 0, 0⟩).position.y)
            / (handleWheel initialViewerState ⟨100, 50, -500, 0, 0⟩).scale :=
  zoom_anchor_preserved initialViewerState ⟨100, 50, -500, 0, 0⟩
    (by norm_num [initialViewerState])
    (by norm_num [initialViewerState])
    (by norm_num [wheelNewScale, initialViewerState, MIN_SCALE, MAX_SCALE, ZOOM_SENSITIVITY])

/-- Claim C4: starting from the initial state (scale 1), every finite
sequence of wheel events leaves the scale within [1, 8]; quantifying
over all sequences covers every intermediate state as well. -/
theorem wheel_scale_clamped (events : List WheelEvent) :
    1 ≤ (events.foldl handleWheel initialViewerState).scale ∧
    (events.foldl handleWheel initialViewerState).scale ≤ 8 := by
  suffices h : ∀ s : ViewerState, 1 ≤ s.scale → s.scale ≤ 8 →
      1 ≤ (events.foldl handleWheel s).scale ∧ (events.foldl handleWheel s).scale ≤ 8 by
    exact h initialViewerState (by norm_num [initialViewerState]) (by norm_num [initialViewerState])
  induction events with
  | nil => exact fun s h1 h8 => ⟨h1, h8⟩
  | cons e es ih =>
    intro s h1 h8
    have hb := handleWheel_scale_bounds s e h1 h8
    exact ih (handleWheel s e) hb.1 hb.2

/-- A viewer state mid-drag, used to exhibit what reset does to the
dragging flag. -/
def exampleDraggingState : ViewerState :=
  { scale := 3, position := ⟨5, 7⟩, isDragging := true, dragStartPos := ⟨1, 2⟩ }

/-- Claim C5 fails as stated: from a prior state whose dragging flag is
set, reset does not clear the flag (`handleReset` writes only scale and
position). -/
theorem reset_does_not_clear_dragging :
    (handleReset exampleDraggingState).isDragging ≠ false := by
  decide

/-- Claim C5 (amended): reset yields scale = 1 and offset (0, 0) from
any prior state; the dragging flag is left unchanged (it is cleared by
pointer-up / pointer-leave, not by reset). -/
theorem reset_postcondition (s : ViewerState) :
    (handleReset s).scale = 1 ∧ (handleReset s).position = ⟨0, 0⟩ ∧
    (handleReset s).isDragging = s.isDragging :=
  ⟨rfl, rfl, rfl⟩

/-- Claim C8: the wheel handler's new scale is exactly
`clamp(scale * (1 + (-deltaY * 0.002)), 1, 8)`, and when that clamped
value equals the current scale the handler is a no-op on the whole
state. -/
theorem wheel_scale_formula_and_noop (s : ViewerState) (e : WheelEvent) :
    (handleWheel s e).scale
        = max MIN_SCALE (min MAX_SCALE (s.scale * (1 + -e.deltaY * ZOOM_SENSITIVITY))) ∧
    (max MIN_SCALE (min MAX_SCALE (s.scale * (1 + -e.deltaY * ZOOM_SENSITIVITY))) = s.scale →
      handleWheel s e = s) := by
  constructor
  · by_cases h : wheelNewScale s e = s.scale
    · unfold handleWheel
      simp only [h, if_pos rfl]
      exact h.symm
    · rw [handleWheel_of_ne s e h]
      rfl
  · intro h
    have h' : wheelNewScale s e = s.scale := h
    unfold handleWheel
    simp [h']

/-- Witness for C8: a wheel event with `deltaY = 0` leaves the initial
state untouched. -/
theorem wheel_scale_formula_and_noop_witness :
    handleWheel initialViewerState ⟨3, 4, 0, 0, 0⟩ = initialViewerState :=
  (wheel_scale_formula_and_noop initialViewerState ⟨3, 4, 0, 0, 0⟩).2
    (by norm_num [initialViewerState, MIN_SCALE, MAX_SCALE, ZOOM_SENSITIVITY])

/-- Claim C9: with the scale within its invariant range, pointer-down
enters dragging exactly when scale > 1 (no-op at scale 1), recording
pointer minus offset as the anchor; pointer-move while dragging sets the
offset to pointer minus anchor, leaving the scale unchanged; pointer-up
(also wired to pointer-leave) exits dragging and retains the offset. -/
theorem drag_semantics (s : ViewerState) (e m : MouseEvent)
    (h1 : 1 ≤ s.scale) :
    (s.scale = 1 → handleMouseDown s e = s) ∧
    (1 < s.scale →
      (handleMouseDown s e).isDragging = true ∧
      (handleMouseDown s e).dragStartPos
          = ⟨e.clientX - s.position.x, e.clientY - s.position.y⟩ ∧
      (handleMouseDown s e).scale = s.scale ∧
      (handleMouseDown s e).position = s.position) ∧
    ((handleMouseDown s e).isDragging = true → s.isDragging = true ∨ 1 < s.scale) ∧
    (s.isDragging = true →
      (handleMouseMove s m).position
          = ⟨m.clientX - s.dragStartPos.x, m.clientY - s.dragStartPos.y⟩ ∧
      (handleMouseMove s m).scale = s.scale ∧
      (handleMouseMove s m).isDragging = true) ∧
    ((handleMouseUp s).isDragging = false ∧
      (handleMouseUp s).position = s.position ∧
      (handleMouseUp s).scale = s.scale) := by
  refine ⟨fun hs1 => ?_, fun hlt => ?_, fun hdrag => ?_, fun hd => ?_, rfl, rfl, rfl⟩
  · unfold handleMouseDown
    simp [hs1]
  · have hne : s.scale ≠ 1 := ne_of_gt hlt
    unfold handleMouseDown
    simp [hne]
  · by_cases hs1 : s.scale = 1
    · unfold handleMouseDown at hdrag
      simp [hs1] at hdrag
      exact Or.inl hdrag
    · exact Or.inr (lt_of_le_of_ne h1 (Ne.symm hs1))
  · unfold handleMouseMove
    simp [hd]

/-- Witness for C9: from the mid-drag example state (scale 3), a
pointer move to (10, 20) puts the offset at (10, 20) minus the anchor
(1, 2). -/
theorem drag_semantics_witness :
    (handleMouseMove exampleDraggingState ⟨10, 20⟩).position = ⟨9, 18⟩ ∧
    (handleMouseMove exampleDraggingState ⟨10, 20⟩).scale = exampleDraggingState.scale ∧
    (handleMouseMove exampleDraggingState ⟨10, 20⟩).isDragging = true := by
  have h := (drag_semantics exampleDraggingState ⟨0, 0⟩ ⟨10, 20⟩
      (by norm_num [exampleDraggingState])).2.2.2.1 rfl
  refine ⟨?_, h.2.1, h.2.2⟩
  rw [h.1]
  norm_num [exampleDraggingState]

/-! ### Validation lemmas -/

theorem invalid_gives_error (j : JSValue) (h : invalidStructure j = true) :
    ∃ e, validateAnalysisResult j = .error e := by
  unfold validateAnalysisResult
  by_cases hn : isNullish j = true
  · exact ⟨.error nullAccessMessage, by simp [hn]⟩
  · exact ⟨.error invalidDataMessage, by simp [hn, h]⟩

/-! ### Claims about validation and the inference client -/

/-- The annotation object of the concrete validation examples. -/
def exampleAnnotationValue : JSValue :=
  .obj [("type", .str "arrow"),
        ("start", .obj [("x", .num 0), ("y", .num 0)]),
        ("end", .obj [("x", .num 1), ("y", .num 1)])]

/-- An input meeting every rule of spec §4.1 as the claim lists them
(prediction and rationale present and strings, recommendation "BUY",
confidence a number, well-formed annotation) whose prediction is the
empty string. -/
def emptyPredictionInput : JSValue :=
  .obj [("prediction", .str ""),
        ("recommendation", .str "BUY"),
        ("confidence", .num 50),
        ("rationale", .str "momentum"),
        ("annotation", exampleAnnotationValue)]

/-- Claim C2 fails as stated: `emptyPredictionInput` satisfies every
§4.1 rule of the claim (its prediction is present and is a string), yet
validation rejects it, because the code tests truthiness and the empty
string is falsy. -/
theorem validation_rejects_spec_valid_input :
    getProp emptyPredictionInput "prediction" = .str "" ∧
    validateAnalysisResult emptyPredictionInput = .error (.error invalidDataMessage) :=
  ⟨rfl, rfl⟩

/-- Claim C2 (amended): for every decoded JSON value whose prediction
and rationale are present non-empty strings, whose recommendation is one
of BUY / SELL / HOLD, whose confidence is a number, and whose annotation
is present and truthy with a truthy type and start/end points having
numeric x and y, validation accepts and returns the input itself (no
mutation). -/
theorem validation_accepts_truthy_valid_input (j : JSValue)
    (hp : ∃ s, getProp j "prediction" = .str s ∧ s ≠ "")
    (hr : getProp j "recommendation" = .str "BUY" ∨
          getProp j "recommendation" = .str "SELL" ∨
          getProp j "recommendation" = .str "HOLD")
    (hc : isNumber (getProp j "confidence") = true)
    (hra : ∃ s, getProp j "rationale" = .str s ∧ s ≠ "")
    (ha : truthy (getProp j "annotation") = true)
    (ht : truthy (getProp (getProp j "annotation") "type") = true)
    (hs : truthy (getProp (getProp j "annotation") "start") = true)
    (hsx : isNumber (getProp (getProp (getProp j "annotation") "start") "x") = true)
    (hsy : isNumber (getProp (getProp (getProp j "annotation") "start") "y") = true)
    (he : truthy (getProp (getProp j "annotation") "end") = true)
    (hex : isNumber (getProp (getProp (getProp j "annotation") "end") "x") = true)
    (hey : isNumber (getProp (getProp (getProp j "annotation") "end") "y") = true) :
    validateAnalysisResult j = .ok j := by
  obtain ⟨sp, hp1, hp2⟩ := hp
  obtain ⟨sr, hra1, hra2⟩ := hra
  have hnn : isNullish j = false := by
    cases j <;> simp_all [getProp, isNullish]
  have hinv : invalidStructure j = false := by
    unfold invalidStructure
    rw [hp1, hra1, hc, ha, ht, hs, hsx, hsy, he, hex, hey]
    rcases hr with h | h | h <;>
      rw [h] <;> simp [truthy, includesRecommendation, hp2, hra2]
  unfold validateAnalysisResult
  simp [hnn, hinv]

/-- A fully valid response object. -/
def exampleValidInput : JSValue :=
  .obj [("prediction", .str "upward breakout"),
        ("recommendation", .str "HOLD"),
        ("confidence", .num 55),
        ("rationale", .str "sideways consolidation"),
        ("annotation", exampleAnnotationValue)]

/-- Witness for the amended C2: the fully valid example object is
accepted unchanged. -/
theorem validation_accepts_truthy_valid_input_witness :
    validateAnalysisResult exampleValidInput = .ok exampleValidInput :=
  validation_accepts_truthy_valid_input exampleValidInput
    ⟨"upward breakout", rfl, by decide⟩
    (Or.inr (Or.inr rfl))
    rfl
    ⟨"sideways consolidation", rfl, by decide⟩
    rfl rfl rfl rfl rfl rfl rfl rfl

/-- Claim C3: an input missing any required field (the access yielding
`undefined`), or whose recommendation is anything other than the exact
strings BUY, SELL, HOLD, is rejected with a failure. -/
theorem validation_rejects_missing_or_bad (j : JSValue)
    (h : getProp j "prediction" = .undefined ∨
         getProp j "recommendation" = .undefined ∨
         getProp j "confidence" = .undefined ∨
         getProp j "rationale" = .undefined ∨
         getProp j "annotation" = .undefined ∨
         getProp (getProp j "annotation") "type" = .undefined ∨
         getProp (getProp j "annotation") "start" = .undefined ∨
         getProp (getProp (getProp j "annotation") "start") "x" = .undefined ∨
         getProp (getProp (getProp j "annotation") "start") "y" = .undefined ∨
         getProp (getProp j "annotation") "end" = .undefined ∨
         getProp (getProp (getProp j "annotation") "end") "x" = .undefined ∨
         getProp (getProp (getProp j "annotation") "end") "y" = .undefined ∨
         (getProp j "recommendation" ≠ .str "BUY" ∧
          getProp j "recommendation" ≠ .str "SELL" ∧
          getProp j "recommendation" ≠ .str "HOLD")) :
    ∃ e, validateAnalysisResult j = .error e := by
  apply invalid_gives_error
  unfold invalidStructure
  rcases h with h | h | h | h | h | h | h | h | h | h | h | h | h
  case _ => rw [h]; simp [truthy]
  case _ => rw [h]; simp [truthy]
  case _ => rw [h]; simp [isNumber]
  case _ => rw [h]; simp [truthy]
  case _ => rw [h]; simp [truthy]
  case _ => rw [h]; simp [truthy]
  case _ => rw [h]; simp [truthy]
  case _ => rw [h]; simp [isNumber]
  case _ => rw [h]; simp [isNumber]
  case _ => rw [h]; simp [truthy]
  case _ => rw [h]; simp [isNumber]
  case _ => rw [h]; simp [isNumber]
  case _ =>
    obtain ⟨hb, hs, hh⟩ := h
    have : includesRecommendation (getProp j "recommendation") = false := by
      rcases hv : getProp j "recommendation" with _ | _ | b | q | s | xs | fs <;>
        simp [includesRecommendation]
      rw [hv] at hb hs hh
      simp_all
    rw [this]
    simp

/-- Witness for C3: the empty object, where every field read yields
`undefined`, is rejected. -/
theorem validation_rejects_missing_or_bad_witness :
    ∃ e, validateAnalysisResult (.obj []) = .error e :=
  validation_rejects_missing_or_bad (.obj []) (Or.inl rfl)

/-- An otherwise valid object whose prediction is the number 42 — a
truthy non-string. -/
def numericPredictionInput : JSValue :=
  .obj [("prediction", .num 42),
        ("recommendation", .str "HOLD"),
        ("confidence", .num 55),
        ("rationale", .str "sideways"),
        ("annotation", exampleAnnotationValue)]

/-- Claim C10: validation of prediction and rationale tests truthiness,
not string type: a truthy numeric prediction is accepted, while every
input whose prediction or rationale is the empty string — a present
string value — is rejected. -/
theorem truthiness_not_type_validation :
    (validateAnalysisResult numericPredictionInput = .ok numericPredictionInput ∧
     getProp numericPredictionInput "prediction" = .num 42) ∧
    (∀ j : JSValue,
      getProp j "prediction" = .str "" ∨ getProp j "rationale" = .str "" →
      ∃ e, validateAnalysisResult j = .error e) := by
  refine ⟨⟨rfl, rfl⟩, fun j h => invalid_gives_error j ?_⟩
  unfold invalidStructure
  rcases h with h | h <;> rw [h] <;> simp [truthy]

/-- Witness for C10: the empty-prediction input is rejected. -/
theorem truthiness_not_type_validation_witness :
    ∃ e, validateAnalysisResult emptyPredictionInput = .error e :=
  truthiness_not_type_validation.2 emptyPredictionInput (Or.inl rfl)

/-- Claim C6: anything `analyzeChart` returns passed validation and is
the parsed response value itself; a service `Error`, a JSON parse
failure, and a schema-validation failure each surface as the single
analysis-failed error kind carrying the underlying message; and every
run ends in exactly one of the two outcomes (a validated result or one
thrown error). -/
theorem analyze_single_failure_category (step : AnalyzeStep) :
    (∀ j, analyzeChartOutcome step = .ok j →
      step = .response (.ok j) ∧ invalidStructure j = false) ∧
    (∀ m, step = .thrown (.error m) →
      analyzeChartOutcome step = .error ("Failed to analyze chart: " ++ m)) ∧
    (∀ m, step = .response (.error m) →
      analyzeChartOutcome step = .error ("Failed to analyze chart: " ++ m)) ∧
    (∀ j, step = .response (.ok j) → invalidStructure j = true → isNullish j = false →
      analyzeChartOutcome step = .error ("Failed to analyze chart: " ++ invalidDataMessage)) ∧
    ((∃ j, analyzeChartOutcome step = .ok j) ∨
     (∃ m, analyzeChartOutcome step = .error m)) := by
  refine ⟨fun j hj => ?_, fun m hm => ?_, fun m hm => ?_, fun j hj hinv hnn => ?_, ?_⟩
  · rcases step with e | p
    · simp [analyzeChartOutcome] at hj
    · rcases p with m | v
      · simp [analyzeChartOutcome] at hj
      · unfold analyzeChartOutcome validateAnalysisResult at hj
        by_cases hn : isNullish v = true
        · simp [hn] at hj
        · by_cases hi : invalidStructure v = true
          · simp [hn, hi] at hj
          · simp [hn, hi] at hj
            simp_all
  · rw [hm]
    rfl
  · rw [hm]
    rfl
  · rw [hj]
    unfold analyzeChartOutcome validateAnalysisResult
    simp [hinv, hnn, wrapAnalyzeError]
  · rcases ho : analyzeChartOutcome step with m | j
    · exact Or.inr ⟨m, rfl⟩
    · exact Or.inl ⟨j, rfl⟩

/-- Witness for C6: a service error whose message is "network down" is
surfaced as the wrapped analysis failure. -/
theorem analyze_single_failure_category_witness :
    analyzeChartOutcome (.thrown (.error "network down"))
      = .error ("Failed to analyze chart: " ++ "network down") :=
  (analyze_single_failure_category (.thrown (.error "network down"))).2.1
    "network down" rfl

/-! ### Continuation lemmas -/

theorem firstInlineData_of_first (pre : List ContentPart) (p : ContentPart)
    (post : List ContentPart) (d : InlineData)
    (hpre : ∀ q ∈ pre, q.inlineData = none) (hp : p.inlineData = some d) :
    firstInlineData (pre ++ p :: post) = some d.data := by
  induction pre with
  | nil => simp [firstInlineData, hp]
  | cons q qs ih =>
    have hq : q.inlineData = none := hpre q (by simp)
    have : firstInlineData (qs ++ p :: post) = some d.data :=
      ih fun r hr => hpre r (by simp [hr])
    simpa [firstInlineData, hq] using this

theorem handleGenerateContinuation_error (s : ModalState) (m : String)
    (hgen : s.isGenerating = false) :
    handleGenerateContinuation true s (.error m)
      = { s with generationError := some m, isGenerating := false } := by
  unfold handleGenerateContinuation
  simp [hgen]

theorem firstInlineData_none (parts : List ContentPart)
    (h : ∀ p ∈ parts, p.inlineData = none) :
    firstInlineData parts = none := by
  induction parts with
  | nil => rfl
  | cons p ps ih =>
    have hp : p.inlineData = none := h p (by simp)
    have : firstInlineData ps = none := ih fun r hr => h r (by simp [hr])
    simpa [firstInlineData, hp] using this

/-- Claim C7: the continuation operation returns the data of the first
response content part carrying inline image data; when no part does, it
fails with the wrapped no-image error, and the modal handler then leaves
the displayed image (the original) unchanged, records the error message,
and ends not generating — a retryable state. -/
theorem continuation_first_image_or_error (parts : List ContentPart)
    (s : ModalState) (img : String) :
    (∀ pre p post d, parts = pre ++ p :: post →
      (∀ q ∈ pre, q.inlineData = none) → p.inlineData = some d →
      continueChartOutcome (.response parts) = .ok d.data) ∧
    ((∀ p ∈ parts, p.inlineData = none) →
      continueChartOutcome (.response parts)
          = .error ("Failed to continue chart: " ++ noImageMessage) ∧
      (s.isGenerating = false → s.continuedImageSrc = none →
        displayImageSrc img
            (handleGenerateContinuation true s (continueChartOutcome (.response parts)))
          = img ∧
        (handleGenerateContinuation true s
            (continueChartOutcome (.response parts))).isGenerating = false ∧
        (handleGenerateContinuation true s
            (continueChartOutcome (.response parts))).generationError
          = some ("Failed to continue chart: " ++ noImageMessage))) := by
  constructor
  · intro pre p post d hparts hpre hp
    rw [hparts]
    simp only [continueChartOutcome, firstInlineData_of_first pre p post d hpre hp]
  · intro hnone
    have hout : continueChartOutcome (.response parts)
        = .error ("Failed to continue chart: " ++ noImageMessage) := by
      simp only [continueChartOutcome, firstInlineData_none parts hnone]
      rfl
    refine ⟨hout, fun hgen hsrc => ?_⟩
    rw [hout, handleGenerateContinuation_error s _ hgen]
    refine ⟨?_, rfl, rfl⟩
    unfold displayImageSrc
    simp [hsrc]

/-- One empty content part and one carrying image data. -/
def examplePartsWithImage : List ContentPart :=
  [⟨none⟩, ⟨some ⟨"IMG64"⟩⟩]

/-- A quiescent modal state showing the original image. -/
def exampleModalState : ModalState :=
  { viewer := initialViewerState, isGenerating := false,
    continuedImageSrc := none, viewingOriginal := true, generationError := none }

/-- Witness for C7: with parts `[no-data, data "IMG64"]` the outcome is
`ok "IMG64"`; with a single data-free part the modal keeps showing the
original image, is retryable, and records the wrapped no-image error. -/
theorem continuation_first_image_or_error_witness :
    continueChartOutcome (.response examplePartsWithImage) = .ok "IMG64" ∧
    (displayImageSrc "original.png"
        (handleGenerateContinuation true exampleModalState
          (continueChartOutcome (.response [⟨none⟩])))
      = "original.png" ∧
     (handleGenerateContinuation true exampleModalState
        (continueChartOutcome (.response [⟨none⟩]))).isGenerating = false ∧
     (handleGenerateContinuation true exampleModalState
        (continueChartOutcome (.response [⟨none⟩]))).generationError
      = some ("Failed to continue chart: " ++ noImageMessage)) := by
  constructor
  · exact (continuation_first_image_or_error examplePartsWithImage
      exampleModalState "original.png").1 [⟨none⟩] ⟨some ⟨"IMG64"⟩⟩ [] ⟨"IMG64"⟩
      rfl (by intro q hq; simp at hq; rw [hq]) rfl
  · exact ((continuation_first_image_or_error [⟨none⟩]
      exampleModalState "original.png").2
      (by intro p hp; simp at hp; rw [hp])).2 rfl rfl

end TradeScope
